import Mathlib

/-!
Shallow embedding of the esp32s3-httpserver-example repository
(src/wifi.rs, src/sensor.rs, src/main.rs), with theorems checking the
specification's claims about the access-point parameter validator and the
shared telemetry store.

Strings from the Rust side are modelled as byte sequences (`List Nat`),
since the validator inspects only byte length (`str::len`) and emptiness,
and copies bytes wholesale.  `f32` sensor values are modelled as `ℚ`:
every constant involved (20.0, 30.0, 50.0, 70.0, 25.0, 60.0, 10.0, 20.0)
is exactly representable and the only arithmetic is one multiply and one
add, monotone under rounding, so the closed-interval claims transfer.
`u64` timestamps are modelled as `Nat` (no arithmetic is performed on
them).
-/

namespace Esp32

/-! ## wifi.rs: access-point configuration builder -/

/-- Auth method subset used by `build_ap_config`
(`AuthMethod::WPA2Personal` / `AuthMethod::None`). -/
inductive AuthMethod where
  | wpa2Personal
  | none
  deriving DecidableEq

/-- `AccessPointConfiguration` fields set by `build_ap_config`
(src/wifi.rs lines 101-110): ssid, auth_method, password, channel,
ssid_hidden, max_connections. -/
structure AccessPointConfiguration where
  ssid : List Nat
  auth_method : AuthMethod
  password : List Nat
  channel : Nat
  ssid_hidden : Bool
  max_connections : Nat
  deriving DecidableEq

/-- `Configuration::AccessPoint` wrapper (the function's success value). -/
inductive Configuration where
  | accessPoint (cfg : AccessPointConfiguration)
  deriving DecidableEq

/-- The distinct failure exits of `build_ap_config`.  The source reports
errors as `anyhow::bail!` message strings; each constructor names one
bail site, using the error taxonomy of the specification:
* `ssidTooLong` — "SSID too long (max 32 chars)" (line 78), the spec's
  `IdentityTooLong`;
* `passwordLengthInvalid` — "WPA2 password must be 8..=63 characters"
  (line 86), the spec's `CredentialLengthInvalid`;
* `passwordTooLong` — "Password too long (max 64 chars)" (line 90);
* `channelOutOfRange` — the spec's `ChannelOutOfRange`; NO bail site in
  the source produces it, the constructor exists so the spec's claim
  about it can be stated. -/
inductive ApError where
  | ssidTooLong
  | passwordLengthInvalid
  | passwordTooLong
  | channelOutOfRange
  deriving DecidableEq

/-- Outcome of `build_ap_config`, with a distinguished `panic` outcome so
that the reachability of the `.unwrap()` calls (src/wifi.rs lines 80 and
92) can be settled. -/
inductive BuildResult where
  | ok (cfg : Configuration)
  | err (e : ApError)
  | panic
  deriving DecidableEq

/-- `heapless::String::<CAP>::push_str`: appends `t` to `s`, failing
(`none`) when the result would exceed the capacity `cap`. -/
def hpushStr (cap : Nat) (s t : List Nat) : Option (List Nat) :=
  if cap < s.length + t.length then Option.none else some (s ++ t)

/-- `build_ap_config` (src/wifi.rs lines 74-113), step for step:
1. a fresh `HString<32>` for the ssid; bail `ssidTooLong` when
   `ssid.len() > capacity` (32); then `push_str(ssid).unwrap()`;
2. for a present, non-empty password: bail `passwordLengthInvalid` when
   `pwd.len() < 8 || pwd.len() > 63`; a fresh `HString<64>`; bail
   `passwordTooLong` when `pwd.len() > capacity` (64); then
   `push_str(pwd).unwrap()`; auth method WPA2-Personal.  An absent or
   empty password yields the empty `HString<64>` and auth method None;
3. the `AccessPointConfiguration` with the given channel, `ssid_hidden:
   false`, `max_connections: 4`.
The channel argument is never inspected, only stored. -/
def build_ap_config (ssid : List Nat) (password : Option (List Nat))
    (channel : Nat) : BuildResult :=
  if ssid.length > 32 then .err .ssidTooLong
  else
    match hpushStr 32 [] ssid with
    | Option.none => .panic
    | some ssid_h =>
      match password with
      | some pwd =>
        if pwd.length ≠ 0 then
          if pwd.length < 8 ∨ pwd.length > 63 then .err .passwordLengthInvalid
          else if pwd.length > 64 then .err .passwordTooLong
          else
            match hpushStr 64 [] pwd with
            | Option.none => .panic
            | some pwd_h =>
              .ok (.accessPoint ⟨ssid_h, .wpa2Personal, pwd_h, channel, false, 4⟩)
        else .ok (.accessPoint ⟨ssid_h, .none, [], channel, false, 4⟩)
      | Option.none => .ok (.accessPoint ⟨ssid_h, .none, [], channel, false, 4⟩)

/-- The open-network (no-credential) configuration `build_ap_config`
produces for an absent or empty password. -/
def openCfg (ssid : List Nat) (channel : Nat) : Configuration :=
  .accessPoint ⟨ssid, .none, [], channel, false, 4⟩

/-- The WPA2-Personal configuration `build_ap_config` produces for a
valid password. -/
def wpa2Cfg (ssid pwd : List Nat) (channel : Nat) : Configuration :=
  .accessPoint ⟨ssid, .wpa2Personal, pwd, channel, false, 4⟩

lemma hpushStr_from_empty (cap : Nat) (t : List Nat) (h : t.length ≤ cap) :
    hpushStr cap [] t = some t := by
  simp [hpushStr, Nat.not_lt.mpr h]

/-- Unfolding of `build_ap_config` for a short-enough ssid and a present,
non-empty, length-valid password. -/
lemma build_ap_config_wpa2 (ssid pwd : List Nat) (channel : Nat)
    (hs : ssid.length ≤ 32) (hne : pwd.length ≠ 0)
    (hlo : 8 ≤ pwd.length) (hhi : pwd.length ≤ 63) :
    build_ap_config ssid (some pwd) channel = .ok (wpa2Cfg ssid pwd channel) := by
  have h64 : pwd.length ≤ 64 := le_trans hhi (by omega)
  simp [build_ap_config, Nat.not_lt.mpr hs,
    hpushStr_from_empty 32 ssid hs, hpushStr_from_empty 64 pwd h64,
    hne, Nat.not_lt.mpr hlo, Nat.not_lt.mpr hhi, Nat.not_lt.mpr h64, wpa2Cfg]

/-- Unfolding of `build_ap_config` for a short-enough ssid and an absent
password. -/
lemma build_ap_config_open_none (ssid : List Nat) (channel : Nat)
    (hs : ssid.length ≤ 32) :
    build_ap_config ssid Option.none channel = .ok (openCfg ssid channel) := by
  simp [build_ap_config, Nat.not_lt.mpr hs, hpushStr_from_empty 32 ssid hs, openCfg]

/-- Unfolding of `build_ap_config` for a short-enough ssid and an empty
password. -/
lemma build_ap_config_open_empty (ssid : List Nat) (channel : Nat)
    (hs : ssid.length ≤ 32) :
    build_ap_config ssid (some []) channel = .ok (openCfg ssid channel) := by
  simp [build_ap_config, Nat.not_lt.mpr hs, hpushStr_from_empty 32 ssid hs, openCfg]

/-- Unfolding of `build_ap_config` for a too-long ssid. -/
lemma build_ap_config_ssid_long (ssid : List Nat) (password : Option (List Nat))
    (channel : Nat) (hs : 32 < ssid.length) :
    build_ap_config ssid password channel = .err .ssidTooLong := by
  simp [build_ap_config, hs]

/-- Unfolding of `build_ap_config` for a short-enough ssid and a present,
non-empty password of invalid length. -/
lemma build_ap_config_pwd_invalid (ssid pwd : List Nat) (channel : Nat)
    (hs : ssid.length ≤ 32) (hne : pwd.length ≠ 0)
    (hbad : pwd.length < 8 ∨ 63 < pwd.length) :
    build_ap_config ssid (some pwd) channel = .err .passwordLengthInvalid := by
  simp only [build_ap_config, gt_iff_lt, Nat.not_lt.mpr hs, if_false,
    hpushStr_from_empty 32 ssid hs]
  simp [hne, hbad]

/-! ## sensor.rs: shared telemetry store -/

/-- `SensorData` (src/sensor.rs lines 7-12): temperature and humidity are
`f32` in the source, modelled as `ℚ`; `timestamp` is `u64` seconds,
modelled as `Nat`. -/
structure SensorData where
  temperature : ℚ
  humidity : ℚ
  timestamp : Nat
  deriving DecidableEq

/-- State of the `Mutex<SensorData>` as seen through `lock()`:
either healthy (lock succeeds, yielding the guarded record) or poisoned
(a holder panicked; `lock()` returns `Err(PoisonError)`, the error still
carrying the guarded record). -/
inductive LockState where
  | healthy (data : SensorData)
  | poisoned (data : SensorData)
  deriving DecidableEq

/-- `now_secs()` value at a given instant: the model threads the current
wall-clock reading in as the `now` argument of each operation that calls
`now_secs`. -/
def fallbackData (now : Nat) : SensorData :=
  { temperature := 25, humidity := 60, timestamp := now }

/-- `new_shared` (src/sensor.rs lines 18-24): the store's initial record,
`temperature: 25.0, humidity: 60.0, timestamp: now_secs()`; `now` is the
wall clock at the moment of creation. -/
def new_shared (now : Nat) : SensorData :=
  { temperature := 25, humidity := 60, timestamp := now }

/-- The `sensor_data` initialization in `main` (src/main.rs lines 74-78):
`temperature: 25.0, humidity: 60.0, timestamp: 0`.  The `now` argument is
the wall clock at the moment of creation; the source does not read it
(no `now_secs`-like call appears there), the timestamp field is the
literal `0`. -/
def mainInitialData (now : Nat) : SensorData :=
  { temperature := 25, humidity := 60, timestamp := 0 }

/-- `snapshot` (src/sensor.rs lines 27-37): on a healthy lock, a clone of
the current record; on a poisoned lock, logs and returns the safe default
`{temperature: 25.0, humidity: 60.0, timestamp: now_secs()}` where `now`
is the wall clock when the fallback is built.  Total: every call returns
a `SensorData`, no error or panic reaches the caller. -/
def snapshot (st : LockState) (now : Nat) : SensorData :=
  match st with
  | .healthy d => d
  | .poisoned _ => fallbackData now

/-- `simulate_update` (src/sensor.rs lines 75-81): overwrites all three
fields; `rt` and `rh` are the two `rand::random::<f32>()` draws (uniform
in `[0, 1)`), `now` the `now_secs()` reading. -/
def simulate_update (d : SensorData) (rt rh : ℚ) (now : Nat) : SensorData :=
  { temperature := 20 + rt * 10, humidity := 50 + rh * 20, timestamp := now }

/-- Observable events of one updater cycle, for reasoning about lock
extent and logging. -/
inductive Event where
  | lockAcquired
  | update
  | logged
  | lockReleased
  | lockFailed
  | sleep
  deriving DecidableEq

/-- One iteration of the `start_updater` loop (src/sensor.rs lines
52-72): inside a block, `shared.lock()`; on `Ok`, `simulate_update` and
an info log; on `Err` (poisoned), a warning log and no write; the lock
guard is dropped at the end of the block, then `thread::sleep(period)`.
Returns the lock state after the cycle and the cycle's event trace; the
function is total — the cycle always completes and reaches its sleep. -/
def start_updater_cycle (st : LockState) (rt rh : ℚ) (now : Nat) :
    LockState × List Event :=
  match st with
  | .healthy d =>
      (.healthy (simulate_update d rt rh now),
       [.lockAcquired, .update, .logged, .lockReleased, .sleep])
  | .poisoned d =>
      (.poisoned d, [.lockFailed, .logged, .sleep])

/-- One iteration of the inline updater loop in `main` (src/main.rs lines
191-208): `sensor_data.lock().unwrap()` — on a poisoned lock the
`unwrap` panics, the cycle does not complete (`Option.none`); on a
healthy lock the three fields are overwritten, the values logged,
`drop(data)` releases the lock, and only then `sleep(...)` runs. -/
def main_updater_cycle (st : LockState) (rt rh : ℚ) (now : Nat) :
    Option (LockState × List Event) :=
  match st with
  | .healthy d =>
      some (.healthy (simulate_update d rt rh now),
            [.lockAcquired, .update, .logged, .lockReleased, .sleep])
  | .poisoned _ => Option.none

/-- Whether a cycle trace contains a `sleep` event that occurs while the
lock is held (acquired and not yet released). -/
def sleepsWhileHolding (tr : List Event) : Bool :=
  (tr.foldl
    (fun (acc : Bool × Bool) e =>
      match e with
      | .lockAcquired => (acc.1, true)
      | .lockReleased => (acc.1, false)
      | .sleep => (acc.1 || acc.2, acc.2)
      | _ => acc)
    (false, false)).1

/-- Serialized history of store operations.  Both `snapshot`'s clone and
each updater's writes happen entirely inside one `lock()`…release scope
of the single `Mutex`, so every concurrent interleaving of these
operations is equivalent to some sequence of atomic operations; the list
is that sequence, in commit order. -/
inductive StoreOp where
  | replace (r : SensorData)
  | snap
  deriving DecidableEq

/-- Runs a serialized operation history against the store, starting from
current record `cur`; returns the list of records the snapshot calls
observed, in order. -/
def runStore (cur : SensorData) : List StoreOp → List SensorData
  | [] => []
  | .replace r :: rest => runStore r rest
  | .snap :: rest => cur :: runStore cur rest

/-- Whether a build outcome is the spec's `ChannelOutOfRange` error. -/
def isChannelError (r : BuildResult) : Bool :=
  match r with
  | .err .channelOutOfRange => true
  | _ => false

/-- Whether a build outcome is one of the two exits claimed unreachable:
a panic of an `unwrap`, or the password-capacity bail ("Password too
long"). -/
def reachesPanicOrCapacityBail (r : BuildResult) : Bool :=
  match r with
  | .panic => true
  | .err .passwordTooLong => true
  | _ => false

/-- Every run of `build_ap_config` ends in a success, the ssid-length
bail, or the password-length bail — never in a panic, the
password-capacity bail, or any other exit. -/
lemma build_ap_config_cases (ssid : List Nat) (password : Option (List Nat))
    (channel : Nat) :
    (∃ cfg, build_ap_config ssid password channel = .ok cfg) ∨
    build_ap_config ssid password channel = .err .ssidTooLong ∨
    build_ap_config ssid password channel = .err .passwordLengthInvalid := by
  by_cases hs : 32 < ssid.length
  · exact Or.inr (Or.inl (build_ap_config_ssid_long ssid password channel hs))
  · have hs' : ssid.length ≤ 32 := Nat.not_lt.mp hs
    cases password with
    | none =>
        exact Or.inl ⟨openCfg ssid channel, build_ap_config_open_none ssid channel hs'⟩
    | some pwd =>
        by_cases hz : pwd.length = 0
        · have hpe : pwd = [] := List.length_eq_zero.mp hz
          subst hpe
          exact Or.inl ⟨openCfg ssid channel, build_ap_config_open_empty ssid channel hs'⟩
        · by_cases hbad : pwd.length < 8 ∨ 63 < pwd.length
          · exact Or.inr (Or.inr
              (build_ap_config_pwd_invalid ssid pwd channel hs' hz hbad))
          · push_neg at hbad
            exact Or.inl ⟨wpa2Cfg ssid pwd channel,
              build_ap_config_wpa2 ssid pwd channel hs' hz hbad.1 hbad.2⟩

end Esp32

namespace Esp32

/-! ## Claims -/

/-- C1 (counterexample): the claim says channel 0 is outside the
supported range and makes validation return the `ChannelOutOfRange`
error, rejecting the parameters.  In the source, `build_ap_config` never
inspects the channel: with the one-byte ssid `"E"` and no password,
channel 0 is accepted and an open-network configuration carrying channel
0 is returned — not an error. -/
theorem claim_C1_counterexample :
    build_ap_config [69] Option.none 0 = .ok (openCfg [69] 0) ∧
    isChannelError (build_ap_config [69] Option.none 0) = false := by
  exact ⟨rfl, rfl⟩

/-- C1 (amended): `build_ap_config` performs no channel validation:
`ChannelOutOfRange` is never returned on any input, and for a valid
identity with a valid credential — absent (open network) or present with
8 to 63 bytes (WPA2) — every channel value whatsoever (0, 1, 13 and 14
included) is accepted, the returned configuration carrying that
channel. -/
theorem claim_C1_amended (ssid pwd : List Nat) (password : Option (List Nat))
    (channel : Nat) :
    isChannelError (build_ap_config ssid password channel) = false ∧
    (ssid.length ≤ 32 →
      build_ap_config ssid Option.none channel = .ok (openCfg ssid channel)) ∧
    (ssid.length ≤ 32 → 8 ≤ pwd.length → pwd.length ≤ 63 →
      build_ap_config ssid (some pwd) channel = .ok (wpa2Cfg ssid pwd channel)) := by
  refine ⟨?_, ?_, ?_⟩
  · rcases build_ap_config_cases ssid password channel with ⟨cfg, h⟩ | h | h <;>
      simp [h, isChannelError]
  · intro hs
    exact build_ap_config_open_none ssid channel hs
  · intro hs hlo hhi
    exact build_ap_config_wpa2 ssid pwd channel hs (by omega) hlo hhi

/-- C1 (witness): at ssid `"ap"` and channel 14 the amended claim is
discharged concretely, both for the absent credential and for the
present 8-byte credential `"passwd78"`: channel 14 is accepted in both
configurations. -/
theorem claim_C1_witness :
    isChannelError (build_ap_config [97, 112] (some [112, 97, 115, 115, 119, 100, 55, 56]) 14)
      = false ∧
    build_ap_config [97, 112] Option.none 14 = .ok (openCfg [97, 112] 14) ∧
    build_ap_config [97, 112] (some [112, 97, 115, 115, 119, 100, 55, 56]) 14
      = .ok (wpa2Cfg [97, 112] [112, 97, 115, 115, 119, 100, 55, 56] 14) := by
  refine ⟨(claim_C1_amended [97, 112] [112, 97, 115, 115, 119, 100, 55, 56]
      (some [112, 97, 115, 115, 119, 100, 55, 56]) 14).1,
    (claim_C1_amended [97, 112] [112, 97, 115, 115, 119, 100, 55, 56]
      (some [112, 97, 115, 115, 119, 100, 55, 56]) 14).2.1 ?_,
    (claim_C1_amended [97, 112] [112, 97, 115, 115, 119, 100, 55, 56]
      (some [112, 97, 115, 115, 119, 100, 55, 56]) 14).2.2 ?_ ?_ ?_⟩
  · decide
  · decide
  · decide
  · decide

/-- C2: on a poisoned lock, `snapshot` still returns (the model function
is total — no error or panic propagates to the caller), and the returned
record is exactly the documented fallback: temperature 25.0, humidity
60.0, and the freshly computed `now_secs()` reading as timestamp. -/
theorem claim_C2_snapshot_poisoned (d : SensorData) (now : Nat) :
    snapshot (.poisoned d) now = fallbackData now ∧
    (snapshot (.poisoned d) now).temperature = 25 ∧
    (snapshot (.poisoned d) now).humidity = 60 ∧
    (snapshot (.poisoned d) now).timestamp = now := by
  exact ⟨rfl, rfl, rfl, rfl⟩

/-- C3: validator boundaries.  With `f := build_ap_config`: a 33-byte
identity is rejected with the identity-length error whatever the
credential; for an identity within bound (32 bytes is accepted), an
absent or empty credential yields the open-network configuration, a
7-byte credential is rejected with the credential-length error, 8- and
63-byte credentials are accepted (WPA2 configuration), and a 64-byte
credential is rejected. -/
theorem claim_C3_boundaries (ssid pwd : List Nat)
    (password : Option (List Nat)) (channel : Nat) :
    (ssid.length = 33 →
      build_ap_config ssid password channel = .err .ssidTooLong) ∧
    (ssid.length = 32 →
      build_ap_config ssid Option.none channel = .ok (openCfg ssid channel)) ∧
    (ssid.length ≤ 32 →
      build_ap_config ssid Option.none channel = .ok (openCfg ssid channel)) ∧
    (ssid.length ≤ 32 →
      build_ap_config ssid (some []) channel = .ok (openCfg ssid channel)) ∧
    (ssid.length ≤ 32 → pwd.length = 7 →
      build_ap_config ssid (some pwd) channel = .err .passwordLengthInvalid) ∧
    (ssid.length ≤ 32 → pwd.length = 8 →
      build_ap_config ssid (some pwd) channel = .ok (wpa2Cfg ssid pwd channel)) ∧
    (ssid.length ≤ 32 → pwd.length = 63 →
      build_ap_config ssid (some pwd) channel = .ok (wpa2Cfg ssid pwd channel)) ∧
    (ssid.length ≤ 32 → pwd.length = 64 →
      build_ap_config ssid (some pwd) channel = .err .passwordLengthInvalid) := by
  refine ⟨?_, ?_, ?_, ?_, ?_, ?_, ?_, ?_⟩
  · intro h
    exact build_ap_config_ssid_long ssid password channel (by omega)
  · intro h
    exact build_ap_config_open_none ssid channel (by omega)
  · intro h
    exact build_ap_config_open_none ssid channel h
  · intro h
    exact build_ap_config_open_empty ssid channel h
  · intro hs h
    exact build_ap_config_pwd_invalid ssid pwd channel hs (by omega) (by omega)
  · intro hs h
    exact build_ap_config_wpa2 ssid pwd channel hs (by omega) (by omega) (by omega)
  · intro hs h
    exact build_ap_config_wpa2 ssid pwd channel hs (by omega) (by omega) (by omega)
  · intro hs h
    exact build_ap_config_pwd_invalid ssid pwd channel hs (by omega) (by omega)

/-- C3 (witness): the boundary checks evaluated at concrete byte
strings: a 33-byte identity; a 32-byte identity with no credential; a
2-byte identity `"hi"` with credentials of 7, 8, 63 and 64 repeated
`'b'` bytes and with the empty credential, all on channel 6. -/
theorem claim_C3_witness :
    build_ap_config (List.replicate 33 97) Option.none 6 = .err .ssidTooLong ∧
    build_ap_config (List.replicate 32 97) Option.none 6
      = .ok (openCfg (List.replicate 32 97) 6) ∧
    build_ap_config [104, 105] (some []) 6 = .ok (openCfg [104, 105] 6) ∧
    build_ap_config [104, 105] (some (List.replicate 7 98)) 6
      = .err .passwordLengthInvalid ∧
    build_ap_config [104, 105] (some (List.replicate 8 98)) 6
      = .ok (wpa2Cfg [104, 105] (List.replicate 8 98) 6) ∧
    build_ap_config [104, 105] (some (List.replicate 63 98)) 6
      = .ok (wpa2Cfg [104, 105] (List.replicate 63 98) 6) ∧
    build_ap_config [104, 105] (some (List.replicate 64 98)) 6
      = .err .passwordLengthInvalid := by
  refine ⟨(claim_C3_boundaries (List.replicate 33 97) [] Option.none 6).1 (by decide),
    (claim_C3_boundaries (List.replicate 32 97) [] Option.none 6).2.1 (by decide),
    (claim_C3_boundaries [104, 105] [] (some []) 6).2.2.2.1 (by decide),
    (claim_C3_boundaries [104, 105] (List.replicate 7 98) Option.none 6).2.2.2.2.1
      (by decide) (by decide),
    (claim_C3_boundaries [104, 105] (List.replicate 8 98) Option.none 6).2.2.2.2.2.1
      (by decide) (by decide),
    (claim_C3_boundaries [104, 105] (List.replicate 63 98) Option.none 6).2.2.2.2.2.2.1
      (by decide) (by decide),
    (claim_C3_boundaries [104, 105] (List.replicate 64 98) Option.none 6).2.2.2.2.2.2.2
      (by decide) (by decide)⟩

/-- C4 (counterexample): the claim says the initial record's timestamp
equals the wall clock at the moment of creation.  The startup path in
`main` (src/main.rs line 77) writes the literal `0`: at a creation
happening at wall-clock second 5, the installed timestamp is 0, and the
proposition "it equals 5" is false. -/
theorem claim_C4_counterexample :
    (mainInitialData 5).timestamp = 0 ∧
    ((mainInitialData 5).timestamp = 5) = False := by
  exact ⟨rfl, eq_false (by decide)⟩

/-- C4 (amended): both creation paths initialize temperature 25.0 and
humidity 60.0; `sensor::new_shared` stamps the record with the creation
instant, while the `main` startup path initializes the timestamp to 0
regardless of the wall clock. -/
theorem claim_C4_amended (now : Nat) :
    new_shared now = { temperature := 25, humidity := 60, timestamp := now } ∧
    mainInitialData now = { temperature := 25, humidity := 60, timestamp := 0 } := by
  exact ⟨rfl, rfl⟩

/-- C5 (counterexample): the claim says that in every updater cycle with
a poisoned lock the updater does not panic, logs, and proceeds.  The
inline updater loop in `main` (src/main.rs line 193) calls
`.lock().unwrap()`: on a poisoned lock the `unwrap` panics and the cycle
never completes — the model returns no completed cycle. -/
theorem claim_C5_counterexample :
    main_updater_cycle (.poisoned { temperature := 25, humidity := 60, timestamp := 0 })
      0 0 1 = Option.none := by
  exact rfl

/-- C5 (amended): the `sensor.rs` updater (`start_updater`) satisfies the
claim: on a poisoned lock its cycle completes without panicking, the
guarded record is left unchanged (nothing installed), a warning is
logged, and the cycle still reaches its sleep, so the loop proceeds to
the next cycle on schedule.  The inline loop in `main.rs` instead panics
(see the counterexample). -/
theorem claim_C5_amended (d : SensorData) (rt rh : ℚ) (now : Nat) :
    start_updater_cycle (.poisoned d) rt rh now
      = (.poisoned d, [.lockFailed, .logged, .sleep]) := by
  exact rfl

/-- C6: every record produced by `simulate_update` from uniform draws
`rt, rh ∈ [0, 1)` has temperature in `[20, 30]` and humidity in
`[50, 70]`. -/
theorem claim_C6_ranges (d : SensorData) (rt rh : ℚ) (now : Nat)
    (hrt0 : 0 ≤ rt) (hrt1 : rt < 1) (hrh0 : 0 ≤ rh) (hrh1 : rh < 1) :
    (20 ≤ (simulate_update d rt rh now).temperature ∧
      (simulate_update d rt rh now).temperature ≤ 30) ∧
    (50 ≤ (simulate_update d rt rh now).humidity ∧
      (simulate_update d rt rh now).humidity ≤ 70) := by
  simp only [simulate_update]
  constructor
  · constructor
    · nlinarith
    · nlinarith
  · constructor
    · nlinarith
    · nlinarith

/-- C6 (witness): the range invariant discharged at the concrete draws
`rt = rh = 1/2` at wall-clock second 7. -/
theorem claim_C6_witness :
    (0 : ℚ) ≤ 1 / 2 ∧ (1 / 2 : ℚ) < 1 ∧
    (20 ≤ (simulate_update { temperature := 25, humidity := 60, timestamp := 0 }
        (1 / 2) (1 / 2) 7).temperature ∧
      (simulate_update { temperature := 25, humidity := 60, timestamp := 0 }
        (1 / 2) (1 / 2) 7).temperature ≤ 30) ∧
    (50 ≤ (simulate_update { temperature := 25, humidity := 60, timestamp := 0 }
        (1 / 2) (1 / 2) 7).humidity ∧
      (simulate_update { temperature := 25, humidity := 60, timestamp := 0 }
        (1 / 2) (1 / 2) 7).humidity ≤ 70) := by
  refine ⟨by norm_num, by norm_num, ?_⟩
  exact claim_C6_ranges { temperature := 25, humidity := 60, timestamp := 0 }
    (1 / 2) (1 / 2) 7 (by norm_num) (by norm_num) (by norm_num) (by norm_num)

/-- C7: against any serialized history of store operations (each atomic
by the mutex), every record a snapshot observes is the record current at
the start of the history (the initial sentinel) or the exact record of
some `replace` in the history — no torn mixture of fields from two
updates. -/
theorem claim_C7_no_torn_reads (init : SensorData) (ops : List StoreOp)
    (out : SensorData) (hmem : out ∈ runStore init ops) :
    out = init ∨ StoreOp.replace out ∈ ops := by
  induction ops generalizing init with
  | nil => simp [runStore] at hmem
  | cons op rest ih =>
      cases op with
      | replace r =>
          rcases ih r hmem with h | h
          · subst h
            exact Or.inr (List.mem_cons_self _ _)
          · exact Or.inr (List.mem_cons_of_mem _ h)
      | snap =>
          rcases List.mem_cons.mp hmem with h | h
          · exact Or.inl h
          · rcases ih init h with h' | h'
            · exact Or.inl h'
            · exact Or.inr (List.mem_cons_of_mem _ h')

/-- C7 (witness): the atomicity statement discharged on the concrete
history `replace ⟨21, 55, 7⟩; snapshot` from the sentinel
`⟨25, 60, 0⟩`. -/
theorem claim_C7_witness :
    ({ temperature := 21, humidity := 55, timestamp := 7 } : SensorData) ∈
      runStore { temperature := 25, humidity := 60, timestamp := 0 }
        [.replace { temperature := 21, humidity := 55, timestamp := 7 }, .snap] ∧
    (({ temperature := 21, humidity := 55, timestamp := 7 } : SensorData)
        = { temperature := 25, humidity := 60, timestamp := 0 } ∨
      StoreOp.replace { temperature := 21, humidity := 55, timestamp := 7 } ∈
        ([.replace { temperature := 21, humidity := 55, timestamp := 7 }, .snap] :
          List StoreOp)) := by
  refine ⟨List.mem_singleton.mpr rfl, ?_⟩
  exact claim_C7_no_torn_reads
    { temperature := 25, humidity := 60, timestamp := 0 }
    [.replace { temperature := 21, humidity := 55, timestamp := 7 }, .snap]
    { temperature := 21, humidity := 55, timestamp := 7 }
    (List.mem_singleton.mpr rfl)

/-- C8: in every cycle of either updater loop, no sleep event happens
while the lock is held: the `sensor.rs` loop's guard scope closes before
`thread::sleep`, and the `main.rs` loop `drop`s its guard before
awaiting its sleep (stated for every cycle that completes). -/
theorem claim_C8_no_sleep_under_lock (st : LockState) (rt rh : ℚ) (now : Nat) :
    sleepsWhileHolding (start_updater_cycle st rt rh now).2 = false ∧
    ∀ st2 tr, main_updater_cycle st rt rh now = some (st2, tr) →
      sleepsWhileHolding tr = false := by
  cases st with
  | healthy d =>
      refine ⟨rfl, ?_⟩
      intro st2 tr h
      have htr : tr = [.lockAcquired, .update, .logged, .lockReleased, .sleep] :=
        (Prod.mk.injEq _ _ _ _ ▸ Option.some.injEq _ _ ▸ h :
          _ ∧ _).2.symm
      rw [htr]
      rfl
  | poisoned d =>
      refine ⟨rfl, ?_⟩
      intro st2 tr h
      cases h

/-- C8 (witness): both cycle traces checked concretely from the healthy
state holding the sentinel record. -/
theorem claim_C8_witness :
    sleepsWhileHolding
      (start_updater_cycle (.healthy { temperature := 25, humidity := 60, timestamp := 0 })
        0 0 1).2 = false ∧
    sleepsWhileHolding [.lockAcquired, .update, .logged, .lockReleased, .sleep] = false := by
  refine ⟨(claim_C8_no_sleep_under_lock
      (.healthy { temperature := 25, humidity := 60, timestamp := 0 }) 0 0 1).1, ?_⟩
  exact (claim_C8_no_sleep_under_lock
      (.healthy { temperature := 25, humidity := 60, timestamp := 0 }) 0 0 1).2
    (.healthy (simulate_update { temperature := 25, humidity := 60, timestamp := 0 } 0 0 1))
    [.lockAcquired, .update, .logged, .lockReleased, .sleep] rfl

/-- C9: the validator is deterministic in its three arguments: two calls
of `build_ap_config` on identical inputs produce one and the same
result.  (The embedding is a plain function because the source routine
only inspects lengths and copies bytes — it performs no I/O and reads no
hidden state.) -/
theorem claim_C9_deterministic (ssid : List Nat) (password : Option (List Nat))
    (channel : Nat) (r₁ r₂ : BuildResult)
    (h₁ : build_ap_config ssid password channel = r₁)
    (h₂ : build_ap_config ssid password channel = r₂) :
    r₁ = r₂ := by
  rw [← h₁, ← h₂]

/-- C9 (witness): two evaluations at ssid `"E"`, no password, channel 1
agree on the open configuration. -/
theorem claim_C9_witness :
    build_ap_config [69] Option.none 1 = .ok (openCfg [69] 1) ∧
    BuildResult.ok (openCfg [69] 1) = .ok (openCfg [69] 1) := by
  exact ⟨rfl, claim_C9_deterministic [69] Option.none 1 _ _ rfl rfl⟩

/-- C10: `build_ap_config` never panics and never takes the
password-capacity bail: the ssid `push_str`'s `unwrap` is guarded by the
`len ≤ 32` check against the capacity-32 buffer, and the password path's
capacity check (`len > 64`) and `push_str` `unwrap` are both unreachable
failures once `len ≤ 63` has been established against the capacity-64
buffer. -/
theorem claim_C10_no_panic (ssid : List Nat) (password : Option (List Nat))
    (channel : Nat) :
    reachesPanicOrCapacityBail (build_ap_config ssid password channel) = false := by
  rcases build_ap_config_cases ssid password channel with ⟨cfg, h⟩ | h | h <;>
    simp [h, reachesPanicOrCapacityBail]

end Esp32
